import Mathlib

/-!
Verification of the YaMDb review-platform core (Django REST backend).

Shallow embedding of the authorization and data-integrity layer:
the relational store is a record of lists of rows (one list per model of
src/api_yamdb/reviews/models.py), and each public operation of
src/api_yamdb/api/views.py together with the validation performed by the
serializers of src/api_yamdb/api/serializers.py becomes a Lean function
from the store (plus the request data) to an optional error and the new
store.  A raised DRF ValidationError / Http404 aborts the request before
any write, so every error branch returns the input store unchanged.
-/

namespace YaMDb

/-! ## Data model (src/api_yamdb/reviews/models.py) -/

/-- Row of the `User` model: username (unique), email (unique, the
authentication identifier), role (choices admin / moderator / user,
default user), bio, first and last name. -/
structure UserRec where
  id : Nat
  username : String
  email : String
  role : String
  bio : String
  first_name : String
  last_name : String
deriving DecidableEq, Repr

/-- Row of the `Category` model: name and unique slug. -/
structure CategoryRec where
  id : Nat
  name : String
  slug : String
deriving DecidableEq, Repr

/-- Row of the `Genre` model: name and unique slug. -/
structure GenreRec where
  id : Nat
  name : String
  slug : String
deriving DecidableEq, Repr

/-- Row of the `Title` model: name, year, optional description and a
nullable foreign key to `Category` (`on_delete=SET_NULL`).  The
many-to-many `genre` field lives in the explicit `GenreTitle` join rows. -/
structure TitleRec where
  id : Nat
  name : String
  year : Nat
  description : Option String
  category : Option Nat
deriving DecidableEq, Repr

/-- Row of the `GenreTitle` join model: nullable foreign keys to `Title`
and `Genre`, both `on_delete=CASCADE`. -/
structure GenreTitleRec where
  id : Nat
  title : Option Nat
  genre : Option Nat
deriving DecidableEq, Repr

/-- Row of the `Review` model: foreign keys to `Title` and `User` (both
`on_delete=CASCADE`), text, score (`PositiveSmallIntegerField`, hence a
natural number) and publication date.  The `auto_now_add` timestamp is
abstracted to a plain number. -/
structure ReviewRec where
  id : Nat
  title : Nat
  author : Nat
  text : String
  score : Nat
  pub_date : Nat
deriving DecidableEq, Repr

/-- The relational store of record: one list of rows per model. -/
structure Store where
  users : List UserRec
  categories : List CategoryRec
  genres : List GenreRec
  titles : List TitleRec
  genreTitles : List GenreTitleRec
  reviews : List ReviewRec
deriving DecidableEq, Repr

/-! ## Error taxonomy

The code signals failures through DRF exceptions; each distinct failure
cause in the source gets its own constructor, and `ApiError.toTaxonomy`
classifies the causes into the abstract error taxonomy of the API
(ValidationError / ConflictError / NotFoundError / AuthenticationError):
uniqueness violations are conflicts, absent entities are not-found,
a confirmation code that does not verify is an authentication failure,
and every other rejected input is a validation failure. -/

/-- One constructor per failure cause in the source. -/
inductive ApiError where
  /-- username fails the `UnicodeUsernameValidator` / length check -/
  | badUsernameFormat
  /-- `UniqueValidator`: username already taken -/
  | usernameTaken
  /-- `RegisterDataSerializer.validate_username`: username is the literal me -/
  | reservedUsername
  /-- email fails the `EmailField` form / length check -/
  | badEmailFormat
  /-- `UniqueValidator`: email already taken -/
  | emailTaken
  /-- a required `CharField` was blank -/
  | blankField
  /-- role outside the model choices -/
  | badRole
  /-- `get_object_or_404` found nothing -/
  | notFound
  /-- `default_token_generator.check_token` returned False -/
  | badConfirmationCode
  /-- `ReviewSerializer.validate_score`: score outside 1..10 -/
  | scoreOutOfRange
  /-- `ReviewSerializer.validate` / the `unique_review` constraint:
  the (title, author) pair already has a review -/
  | duplicateReview
deriving DecidableEq, Repr

/-- The abstract error classes of the API error-handling design. -/
inductive ErrorClass where
  | ValidationError
  | ConflictError
  | NotFoundError
  | AuthenticationError
deriving DecidableEq, Repr

/-- Classification of the concrete failure causes into the abstract
taxonomy: uniqueness violations are conflicts, absence is not-found,
a failed code check is an authentication failure, the rest are
validation failures. -/
def ApiError.toTaxonomy : ApiError → ErrorClass
  | .usernameTaken => .ConflictError
  | .emailTaken => .ConflictError
  | .duplicateReview => .ConflictError
  | .notFound => .NotFoundError
  | .badConfirmationCode => .AuthenticationError
  | _ => .ValidationError

/-! ## Field validators -/

/-- One character of `UnicodeUsernameValidator`: letters, digits and
`@`, `.`, `+`, `-`, `_` (unicode letter classes abstracted to
alphanumeric). -/
def usernameChar (c : Char) : Bool :=
  c.isAlphanum || c = '_' || c = '.' || c = '@' || c = '+' || c = '-'

/-- Username field validation: non-empty, at most 150 characters
(`max_length=150`), characters restricted by
`UnicodeUsernameValidator`. -/
def usernameFormatOk (u : String) : Bool :=
  !u.toList.isEmpty && decide (u.toList.length ≤ 150) && u.toList.all usernameChar

/-- Email field validation (`EmailField`, `max_length=254`): the Django
`EmailValidator` is abstracted to non-empty, at most 254 characters and
containing an at-sign. -/
def emailFormatOk (e : String) : Bool :=
  !e.toList.isEmpty && decide (e.toList.length ≤ 254) && e.toList.contains '@'

/-- `User.objects.filter(username=...).exists()` -/
def usernameExists (st : Store) (u : String) : Bool :=
  st.users.any (fun x => x.username == u)

/-- `User.objects.filter(email=...).exists()` -/
def emailExists (st : Store) (e : String) : Bool :=
  st.users.any (fun x => x.email == e)

/-- `User.objects.filter(username=..., email=...).exists()` -/
def pairExists (st : Store) (u e : String) : Bool :=
  st.users.any (fun x => x.username == u && x.email == e)

/-- A fresh primary key for a new user row. -/
def nextUserId (st : Store) : Nat :=
  (st.users.map UserRec.id).foldr max 0 + 1

/-! ## Identity store operations (src/api_yamdb/api/views.py) -/

/-- `RegisterDataSerializer` validation, first failing field first:
username format, username uniqueness (`UniqueValidator`), the reserved
literal me (`validate_username`), then email format and email
uniqueness. -/
def registerValidate (st : Store) (u e : String) : Option ApiError :=
  if !usernameFormatOk u then some .badUsernameFormat
  else if usernameExists st u then some .usernameTaken
  else if u == "me" then some .reservedUsername
  else if !emailFormatOk e then some .badEmailFormat
  else if emailExists st e then some .emailTaken
  else none

/-- The `register` view: if a user with exactly this (username, email)
pair exists, re-send the confirmation code and succeed without touching
the store; otherwise run the serializer validation and, on success,
`get_or_create` the user (necessarily a creation, the pair being absent
and both fields free) and send the code.  The result is the optional
error, the new store and the list of addresses a confirmation code was
sent to. -/
def register (st : Store) (u e : String) : Option ApiError × Store × List String :=
  if pairExists st u e then
    (none, st, [e])
  else
    match registerValidate st u e with
    | some err => (some err, st, [])
    | none =>
      let usr : UserRec :=
        { id := nextUserId st, username := u, email := e, role := "user",
          bio := "", first_name := "", last_name := "" }
      (none, { st with users := st.users ++ [usr] }, [e])

/-- The three role choices of the `User` model. -/
def roleChoices : List String := ["admin", "moderator", "user"]

/-- `UserSerializer` validation (the admin user-management serializer):
username format and uniqueness, email format and uniqueness, role among
the model choices when supplied.  There is no check against the literal
me here. -/
def userSerializerValidate (st : Store) (u e : String) (role : Option String) :
    Option ApiError :=
  if !usernameFormatOk u then some .badUsernameFormat
  else if usernameExists st u then some .usernameTaken
  else if !emailFormatOk e then some .badEmailFormat
  else if emailExists st e then some .emailTaken
  else
    match role with
    | some r => if roleChoices.contains r then none else some .badRole
    | none => none

/-- Admin user creation (`UserViewSet` create with `UserSerializer`):
validate, then insert a new user row; role defaults to user. -/
def adminCreateUser (st : Store) (u e : String) (role : Option String)
    (bio fn ln : String) : Option ApiError × Store :=
  match userSerializerValidate st u e role with
  | some err => (some err, st)
  | none =>
    let usr : UserRec :=
      { id := nextUserId st, username := u, email := e,
        role := role.getD "user", bio := bio, first_name := fn, last_name := ln }
    (none, { st with users := st.users ++ [usr] })

/-- The PATCH body of the own-profile endpoint: every field optional
(`partial=True`).  A submitted role is carried here only to show that it
is ignored (`read_only_fields = ('role',)`). -/
structure UserEditData where
  username : Option String := none
  email : Option String := none
  first_name : Option String := none
  last_name : Option String := none
  bio : Option String := none
  role : Option String := none
deriving DecidableEq, Repr

/-- `UniqueValidator` on an update excludes the instance being updated. -/
def usernameTakenByOther (st : Store) (uid : Nat) (u : String) : Bool :=
  st.users.any (fun x => x.username == u && x.id != uid)

/-- As `usernameTakenByOther`, for the email field. -/
def emailTakenByOther (st : Store) (uid : Nat) (e : String) : Bool :=
  st.users.any (fun x => x.email == e && x.id != uid)

/-- Email part of the `UserEditSerializer` validation: a supplied email
is checked for format and uniqueness (excluding the instance). -/
def userEditValidateEmail (st : Store) (uid : Nat) (d : UserEditData) :
    Option ApiError :=
  match d.email with
  | some e =>
    if !emailFormatOk e then some .badEmailFormat
    else if emailTakenByOther st uid e then some .emailTaken
    else none
  | none => none

/-- `UserEditSerializer` validation on a partial update: each supplied
field is checked for format and uniqueness (excluding the instance).
The role field is read-only, so no check applies to it. -/
def userEditValidate (st : Store) (uid : Nat) (d : UserEditData) : Option ApiError :=
  match d.username with
  | some u =>
    if !usernameFormatOk u then some .badUsernameFormat
    else if usernameTakenByOther st uid u then some .usernameTaken
    else userEditValidateEmail st uid d
  | none => userEditValidateEmail st uid d

/-- `serializer.save()` on the own-profile PATCH: each supplied writable
field overwrites the stored one; role is read-only and therefore never
written. -/
def applyUserEdit (u : UserRec) (d : UserEditData) : UserRec :=
  { u with
    username := d.username.getD u.username,
    email := d.email.getD u.email,
    first_name := d.first_name.getD u.first_name,
    last_name := d.last_name.getD u.last_name,
    bio := d.bio.getD u.bio }

/-- The `users_own_profile` action (`UserViewSet`, url_path me) for the
PATCH method: the requester must be an authenticated (hence stored)
user; the partial data is validated and then saved onto that user row. -/
def users_own_profile (st : Store) (uid : Nat) (d : UserEditData) :
    Option ApiError × Store :=
  match st.users.find? (fun x => x.id == uid) with
  | none => (some .notFound, st)
  | some _ =>
    match userEditValidate st uid d with
    | some err => (some err, st)
    | none =>
      (none, { st with
        users := st.users.map (fun x => if x.id == uid then applyUserEdit x d else x) })

/-! ## Confirmation-code authentication (src/api_yamdb/api/views.py) -/

/-- The bearer credential minted by `AccessToken.for_user`: it carries
the identity of the user it was issued for. -/
structure AccessToken where
  user_id : Nat
deriving DecidableEq, Repr

/-- The `get_jwt_token` view, parametrised by the deterministic code
derivation function of the external `default_token_generator` (the spec:
the code is a stateless function of the user state, and `check_token`
verifies a candidate against the derivation).  `TokenSerializer` demands
both `CharField`s non-blank, the user is looked up by username with
`get_object_or_404`, and a verifying code yields `AccessToken.for_user`. -/
def get_jwt_token (tokenGen : UserRec → String) (st : Store) (u code : String) :
    Except ApiError AccessToken :=
  if u == "" || code == "" then .error .blankField
  else
    match st.users.find? (fun x => x.username == u) with
    | none => .error .notFound
    | some usr =>
      if code == tokenGen usr then .ok ⟨usr.id⟩
      else .error .badConfirmationCode

/-! ## Review aggregate (src/api_yamdb/api/views.py, serializers.py) -/

/-- The HTTP methods the review serializer distinguishes
(`self.context['request'].method`). -/
inductive Method where
  | POST
  | PATCH
  | DELETE
deriving DecidableEq, Repr

/-- `get_object_or_404(Title, id=title_id)` -/
def findTitle (st : Store) (tid : Nat) : Option TitleRec :=
  st.titles.find? (fun t => t.id == tid)

/-- `ReviewSerializer.validate`: resolve the title (404 when absent) and,
only for the POST method, reject the request when a review by this
author on this title already exists (the application-level face of the
`unique_review` constraint). -/
def reviewValidate (method : Method) (st : Store) (authorId tid : Nat) :
    Option ApiError :=
  match findTitle st tid with
  | none => some .notFound
  | some _ =>
    if method == .POST
        && st.reviews.any (fun r => r.author == authorId && r.title == tid) then
      some .duplicateReview
    else none

/-- `ReviewSerializer.validate_score`: the score must lie in 1..10. -/
def validate_score (sc : Int) : Option ApiError :=
  if 1 ≤ sc ∧ sc ≤ 10 then none else some .scoreOutOfRange

/-- A fresh primary key for a new review row. -/
def nextReviewId (st : Store) : Nat :=
  (st.reviews.map ReviewRec.id).foldr max 0 + 1

/-- Review creation (`ReviewViewSet` POST): field validation
(`validate_score`) runs first, then the object-level `validate` with the
POST method (title resolution and duplicate check), then
`perform_create` inserts the row with the requester as author.  The
`auto_now_add` timestamp is abstracted to zero. -/
def create_review (st : Store) (authorId tid : Nat) (sc : Int) (tx : String) :
    Option ApiError × Store :=
  match validate_score sc with
  | some err => (some err, st)
  | none =>
    match reviewValidate .POST st authorId tid with
    | some err => (some err, st)
    | none =>
      let r : ReviewRec :=
        { id := nextReviewId st, title := tid, author := authorId,
          text := tx, score := sc.toNat, pub_date := 0 }
      (none, { st with reviews := st.reviews ++ [r] })

/-- On a partial update the score field is validated only when it is
part of the submitted data. -/
def validate_optional_score (sc : Option Int) : Option ApiError :=
  match sc with
  | some v => validate_score v
  | none => none

/-- `serializer.save()` on a review PATCH: the matching row gets the
supplied score and text; title and author are read-only fields and are
never written. -/
def applyReviewEdit (rid tid : Nat) (sc : Option Int) (tx : Option String)
    (r : ReviewRec) : ReviewRec :=
  if r.id == rid && r.title == tid then
    { r with score := (sc.map Int.toNat).getD r.score, text := tx.getD r.text }
  else r

/-- Review update (`ReviewViewSet` PATCH): the title and the review are
resolved (404 when absent), a supplied score is range-checked, the
object-level `validate` runs with the PATCH method (so the duplicate
check is skipped), and the writable fields score and text are saved;
title and author are read-only. -/
def update_review (st : Store) (authorId rid tid : Nat) (sc : Option Int)
    (tx : Option String) : Option ApiError × Store :=
  match findTitle st tid with
  | none => (some .notFound, st)
  | some _ =>
    match st.reviews.find? (fun r => r.id == rid && r.title == tid) with
    | none => (some .notFound, st)
    | some _ =>
      match validate_optional_score sc with
      | some err => (some err, st)
      | none =>
        match reviewValidate .PATCH st authorId tid with
        | some err => (some err, st)
        | none =>
          (none, { st with
            reviews := st.reviews.map (applyReviewEdit rid tid sc tx) })

/-- Review deletion (`ReviewViewSet` DELETE): resolve title and review
(404 when absent), then remove the row.  No serializer validation runs
on a destroy. -/
def destroy_review (st : Store) (rid tid : Nat) : Option ApiError × Store :=
  match findTitle st tid with
  | none => (some .notFound, st)
  | some _ =>
    match st.reviews.find? (fun r => r.id == rid && r.title == tid) with
    | none => (some .notFound, st)
    | some _ =>
      (none, { st with
        reviews := st.reviews.filter (fun r => !(r.id == rid && r.title == tid)) })

/-! ## Catalog deletions (src/api_yamdb/api/views.py, models.py) -/

/-- Category deletion (`CategoryViewSet` destroy, keyed by slug).
`Title.category` is declared `on_delete=SET_NULL`: every title whose
category pointed at the deleted row gets category null; nothing else of
any title changes and no title is deleted. -/
def destroy_category (st : Store) (slug : String) : Option ApiError × Store :=
  match st.categories.find? (fun c => c.slug == slug) with
  | none => (some .notFound, st)
  | some c =>
    (none, { st with
      categories := st.categories.filter (fun x => x.id != c.id),
      titles := st.titles.map (fun t =>
        if t.category == some c.id then { t with category := none } else t) })

/-- Genre deletion (`GenreViewSet` destroy, keyed by slug).
`GenreTitle.genre` is declared `on_delete=CASCADE`: the join rows
referencing the deleted genre are removed; titles are untouched. -/
def destroy_genre (st : Store) (slug : String) : Option ApiError × Store :=
  match st.genres.find? (fun g => g.slug == slug) with
  | none => (some .notFound, st)
  | some g =>
    (none, { st with
      genres := st.genres.filter (fun x => x.id != g.id),
      genreTitles := st.genreTitles.filter (fun gt => gt.genre != some g.id) })

/-! ## Rating (src/api_yamdb/api/views.py line 253, serializers.py) -/

/-- The reviews of one title (`title.reviews.all()`). -/
def title_reviews (st : Store) (tid : Nat) : List ReviewRec :=
  st.reviews.filter (fun r => r.title == tid)

/-- The `rating` value of `Title.objects.annotate(rating=Avg('reviews__score'))`:
SQL AVG, i.e. NULL when the title has no reviews and otherwise the exact
arithmetic mean of the scores. -/
def avg_rating (st : Store) (tid : Nat) : Option ℚ :=
  let rs := title_reviews st tid
  if rs.isEmpty then none
  else some (((rs.map (fun r => (r.score : ℚ))).sum) / (rs.length : ℚ))

/-- The rating a read (list / retrieve) returns:
`ReadOnlyTitleSerializer` declares `rating = serializers.IntegerField(read_only=True)`,
whose representation applies int() to the annotated average — truncation
toward zero, which on the nonnegative averages arising here is the
floor.  A NULL annotation is passed through as null. -/
def read_rating (st : Store) (tid : Nat) : Option ℤ :=
  (avg_rating st tid).map (fun q => ⌊q⌋)

/-! ## The operations as one step relation -/

/-- One public mutating operation of the modelled surface. -/
inductive Op where
  | opRegister (u e : String)
  | opAdminCreateUser (u e : String) (role : Option String) (bio fn ln : String)
  | opOwnProfile (uid : Nat) (d : UserEditData)
  | opCreateReview (authorId tid : Nat) (sc : Int) (tx : String)
  | opUpdateReview (authorId rid tid : Nat) (sc : Option Int) (tx : Option String)
  | opDestroyReview (rid tid : Nat)
  | opDestroyCategory (slug : String)
  | opDestroyGenre (slug : String)

/-- Run one operation against the store. -/
def applyOp (op : Op) (st : Store) : Option ApiError × Store :=
  match op with
  | .opRegister u e => ((register st u e).1, (register st u e).2.1)
  | .opAdminCreateUser u e role bio fn ln => adminCreateUser st u e role bio fn ln
  | .opOwnProfile uid d => users_own_profile st uid d
  | .opCreateReview a tid sc tx => create_review st a tid sc tx
  | .opUpdateReview a rid tid sc tx => update_review st a rid tid sc tx
  | .opDestroyReview rid tid => destroy_review st rid tid
  | .opDestroyCategory slug => destroy_category st slug
  | .opDestroyGenre slug => destroy_genre st slug

/-! ## The one-review-per-(title, author) invariant -/

/-- Two review rows are compatible when they do not claim the same
(title, author) pair. -/
def distinctPair (r1 r2 : ReviewRec) : Prop :=
  ¬ (r1.title = r2.title ∧ r1.author = r2.author)

instance : DecidableRel distinctPair := fun r1 r2 => by
  unfold distinctPair; infer_instance

/-- The `unique_review` storage constraint: no two rows of the review
table share a (title, author) pair. -/
def reviewUniq (st : Store) : Prop :=
  st.reviews.Pairwise distinctPair

instance (st : Store) : Decidable (reviewUniq st) := by
  unfold reviewUniq; infer_instance

/-! ## Helper lemmas -/

/-- Registration never touches the review table. -/
theorem register_reviews (st : Store) (u e : String) :
    ((register st u e).2.1).reviews = st.reviews := by
  unfold register
  split
  · rfl
  · split <;> rfl

/-- Admin user creation never touches the review table. -/
theorem adminCreateUser_reviews (st : Store) (u e : String) (role : Option String)
    (bio fn ln : String) :
    ((adminCreateUser st u e role bio fn ln).2).reviews = st.reviews := by
  unfold adminCreateUser
  split <;> rfl

/-- The own-profile PATCH never touches the review table. -/
theorem users_own_profile_reviews (st : Store) (uid : Nat) (d : UserEditData) :
    ((users_own_profile st uid d).2).reviews = st.reviews := by
  unfold users_own_profile
  split
  · rfl
  · split <;> rfl

/-- Category deletion never touches the review table. -/
theorem destroy_category_reviews (st : Store) (slug : String) :
    ((destroy_category st slug).2).reviews = st.reviews := by
  unfold destroy_category
  split <;> rfl

/-- Genre deletion never touches the review table. -/
theorem destroy_genre_reviews (st : Store) (slug : String) :
    ((destroy_genre st slug).2).reviews = st.reviews := by
  unfold destroy_genre
  split <;> rfl

/-- A review edit never changes which (title, author) pair a row claims. -/
theorem applyReviewEdit_pair (rid tid : Nat) (sc : Option Int) (tx : Option String)
    (r : ReviewRec) :
    (applyReviewEdit rid tid sc tx r).title = r.title ∧
    (applyReviewEdit rid tid sc tx r).author = r.author := by
  unfold applyReviewEdit
  split <;> exact ⟨rfl, rfl⟩

/-- A successful `reviewValidate` for POST means no review with that
(title, author) pair is stored. -/
theorem reviewValidate_post_none (st : Store) (a tid : Nat)
    (h : reviewValidate .POST st a tid = none) :
    st.reviews.any (fun r => r.author == a && r.title == tid) = false := by
  unfold reviewValidate at h
  rcases hfind : findTitle st tid with _ | t <;> rw [hfind] at h
  · exact Option.noConfusion h
  · simp only [beq_self_eq_true, Bool.true_and] at h
    by_contra hc
    rw [Bool.not_eq_false] at hc
    rw [if_pos hc] at h
    exact Option.noConfusion h

/-- Review creation preserves the uniqueness invariant. -/
theorem create_review_uniq (st : Store) (a tid : Nat) (sc : Int) (tx : String)
    (h : reviewUniq st) : reviewUniq (create_review st a tid sc tx).2 := by
  unfold create_review
  split
  · exact h
  · split
    · exact h
    · next hval =>
      have hany := reviewValidate_post_none st a tid hval
      rw [List.any_eq_false] at hany
      show List.Pairwise distinctPair (st.reviews ++ [_])
      rw [List.pairwise_append]
      refine ⟨h, List.pairwise_singleton _ _, ?_⟩
      intro x hx y hy
      rw [List.mem_singleton] at hy
      subst hy
      intro hpair
      apply hany x hx
      rw [Bool.and_eq_true, beq_iff_eq, beq_iff_eq]
      exact ⟨hpair.2, hpair.1⟩

/-- Review update preserves the uniqueness invariant. -/
theorem update_review_uniq (st : Store) (a rid tid : Nat) (sc : Option Int)
    (tx : Option String) (h : reviewUniq st) :
    reviewUniq (update_review st a rid tid sc tx).2 := by
  unfold update_review
  split
  · exact h
  · split
    · exact h
    · split
      · exact h
      · split
        · exact h
        · show List.Pairwise distinctPair
            (st.reviews.map (applyReviewEdit rid tid sc tx))
          rw [List.pairwise_map]
          refine h.imp ?_
          intro r1 r2 hd hpair
          apply hd
          obtain ⟨ht1, ha1⟩ := applyReviewEdit_pair rid tid sc tx r1
          obtain ⟨ht2, ha2⟩ := applyReviewEdit_pair rid tid sc tx r2
          rw [ht1, ha1, ht2, ha2] at hpair
          exact hpair

/-- Review deletion preserves the uniqueness invariant. -/
theorem destroy_review_uniq (st : Store) (rid tid : Nat) (h : reviewUniq st) :
    reviewUniq (destroy_review st rid tid).2 := by
  unfold destroy_review
  split
  · exact h
  · split
    · exact h
    · exact h.filter _

/-- In a store that holds a review for the pair, a valid second creation
attempt is rejected by the uniqueness guard and the store is unchanged. -/
theorem create_review_duplicate (st : Store) (a tid : Nat) (sc : Int) (tx : String)
    (hsc : 1 ≤ sc ∧ sc ≤ 10)
    (htitle : ∃ tt ∈ st.titles, tt.id = tid)
    (hdup : ∃ r ∈ st.reviews, r.author = a ∧ r.title = tid) :
    create_review st a tid sc tx = (some .duplicateReview, st) := by
  have hvs : validate_score sc = none := by
    unfold validate_score; rw [if_pos hsc]
  have hfind : (findTitle st tid).isSome := by
    unfold findTitle
    rw [List.find?_isSome]
    obtain ⟨tt, h1, h2⟩ := htitle
    exact ⟨tt, h1, by simp [h2]⟩
  have hany : st.reviews.any (fun r => r.author == a && r.title == tid) = true := by
    rw [List.any_eq_true]
    obtain ⟨r, h1, h2, h3⟩ := hdup
    exact ⟨r, h1, by simp [h2, h3]⟩
  have hrv : reviewValidate .POST st a tid = some .duplicateReview := by
    unfold reviewValidate
    rcases hft : findTitle st tid with _ | tt
    · rw [hft] at hfind; exact absurd hfind (by simp)
    · simp [hany]
  unfold create_review
  rw [hvs, hrv]

/-! ## Concrete sample data for witnesses and counterexamples -/

/-- A sample registered user. -/
def alice : UserRec :=
  { id := 1, username := "alice", email := "a@x.com", role := "user",
    bio := "", first_name := "", last_name := "" }

/-- A second sample user. -/
def bob : UserRec :=
  { id := 2, username := "bob", email := "b@x.com", role := "moderator",
    bio := "", first_name := "", last_name := "" }

/-- A sample store: two users, one category, one genre, one title in the
category and carrying the genre, and one review by alice on the title. -/
def wStore : Store :=
  { users := [alice, bob],
    categories := [{ id := 1, name := "Books", slug := "books" }],
    genres := [{ id := 1, name := "Drama", slug := "drama" }],
    titles := [{ id := 1, name := "T", year := 2000, description := none,
                 category := some 1 }],
    genreTitles := [{ id := 1, title := some 1, genre := some 1 }],
    reviews := [{ id := 1, title := 1, author := 1, text := "r", score := 7,
                  pub_date := 0 }] }

/-! ## Claims -/

/-- Claim C1: at most one review exists per (title, author) pair: the
uniqueness invariant of the review table is preserved by every modelled
operation, and a second valid `create_review` for a pair that already
has a review fails with the duplicate-review error — a conflict in the
error taxonomy — leaving the store unchanged. -/
theorem C1_one_review_per_pair :
    (∀ (op : Op) (st : Store), reviewUniq st → reviewUniq (applyOp op st).2) ∧
    (∀ (st : Store) (a tid : Nat) (sc : Int) (tx : String),
      1 ≤ sc ∧ sc ≤ 10 →
      (∃ tt ∈ st.titles, tt.id = tid) →
      (∃ r ∈ st.reviews, r.author = a ∧ r.title = tid) →
      create_review st a tid sc tx = (some ApiError.duplicateReview, st) ∧
      ApiError.duplicateReview.toTaxonomy = ErrorClass.ConflictError) := by
  constructor
  · intro op st h
    cases op with
    | opRegister u e =>
      show List.Pairwise distinctPair ((register st u e).2.1).reviews
      rw [register_reviews]; exact h
    | opAdminCreateUser u e role bio fn ln =>
      show List.Pairwise distinctPair
        ((adminCreateUser st u e role bio fn ln).2).reviews
      rw [adminCreateUser_reviews]; exact h
    | opOwnProfile uid d =>
      show List.Pairwise distinctPair ((users_own_profile st uid d).2).reviews
      rw [users_own_profile_reviews]; exact h
    | opCreateReview a tid sc tx => exact create_review_uniq st a tid sc tx h
    | opUpdateReview a rid tid sc tx =>
      exact update_review_uniq st a rid tid sc tx h
    | opDestroyReview rid tid => exact destroy_review_uniq st rid tid h
    | opDestroyCategory slug =>
      show List.Pairwise distinctPair ((destroy_category st slug).2).reviews
      rw [destroy_category_reviews]; exact h
    | opDestroyGenre slug =>
      show List.Pairwise distinctPair ((destroy_genre st slug).2).reviews
      rw [destroy_genre_reviews]; exact h
  · intro st a tid sc tx hsc htitle hdup
    exact ⟨create_review_duplicate st a tid sc tx hsc htitle hdup, rfl⟩

/-- Witness for C1 at the sample store: the invariant survives a fresh
review by bob, and a second review by alice on title 1 is refused with
the store unchanged. -/
theorem C1_one_review_per_pair_witness :
    reviewUniq (applyOp (Op.opCreateReview 2 1 9 "x") wStore).2 ∧
    create_review wStore 1 1 9 "y" = (some ApiError.duplicateReview, wStore) ∧
    ApiError.duplicateReview.toTaxonomy = ErrorClass.ConflictError := by
  refine ⟨C1_one_review_per_pair.1 (Op.opCreateReview 2 1 9 "x") wStore (by decide),
    (C1_one_review_per_pair.2 wStore 1 1 9 "y" (by decide) (by decide) (by decide)).1,
    (C1_one_review_per_pair.2 wStore 1 1 9 "y" (by decide) (by decide) (by decide)).2⟩

/-- Natural division of the sum by the count is the floor of the exact
rational mean. -/
theorem floor_natCast_div (m n : Nat) :
    ⌊((m : ℚ)) / ((n : ℚ))⌋ = (((m / n : Nat)) : Int) := by
  rw [← Nat.floor_div_eq_div (α := ℚ) m n]
  exact (Int.natCast_floor_eq_floor (by positivity)).symm

/-- The sample store with a second review, score 8 by bob, on title 1. -/
def wStore2 : Store :=
  { wStore with
    reviews := wStore.reviews ++
      [{ id := 2, title := 1, author := 2, text := "s", score := 8,
         pub_date := 0 }] }

/-- Claim C2 counterexample: on a title with scores 7 and 8 the read
endpoint reports rating 7 although the exact arithmetic mean of the
scores is 15/2; the reported value is strictly below the mean, so the
rating returned by a read does not equal the exact arithmetic mean. -/
theorem C2_counterexample_truncated :
    read_rating wStore2 1 = some 7 ∧
    avg_rating wStore2 1 = some (15 / 2) ∧
    (7 : ℚ) < 15 / 2 := by
  refine ⟨?_, ?_, by norm_num⟩
  · norm_num [read_rating, avg_rating, title_reviews, wStore2, wStore]
  · norm_num [avg_rating, title_reviews, wStore2, wStore]

/-- Claim C2 (amended): the rating returned by a read is the floor of
the exact arithmetic mean of the title's review scores — equivalently
the integer quotient of their sum by their count — and is absent (null),
never zero, exactly when the title has no reviews. -/
theorem C2_rating_floor_of_mean :
    ∀ (st : Store) (tid : Nat),
      (title_reviews st tid = [] → read_rating st tid = none) ∧
      (title_reviews st tid ≠ [] →
        read_rating st tid =
          some ((((title_reviews st tid).map ReviewRec.score).sum /
            (title_reviews st tid).length : Nat) : Int)) := by
  intro st tid
  constructor
  · intro hemp
    unfold read_rating avg_rating
    simp [hemp]
  · intro hne
    unfold read_rating avg_rating
    rw [if_neg (by simpa [List.isEmpty_iff] using hne)]
    simp only [Option.map_some']
    congr 1
    have hsum : ((title_reviews st tid).map (fun r => ((r.score : Nat) : ℚ))).sum
        = ((((title_reviews st tid).map ReviewRec.score).sum : Nat) : ℚ) := by
      rw [Nat.cast_list_sum, List.map_map]
      rfl
    rw [hsum]
    exact floor_natCast_div _ _

/-- Witness for C2 at the sample stores: a title with reviews gets the
integer quotient, a title without reviews gets null. -/
theorem C2_rating_floor_of_mean_witness :
    read_rating wStore2 1 =
      some ((((title_reviews wStore2 1).map ReviewRec.score).sum /
        (title_reviews wStore2 1).length : Nat) : Int) ∧
    read_rating wStore2 5 = none :=
  ⟨(C2_rating_floor_of_mean wStore2 1).2 (by decide),
   (C2_rating_floor_of_mean wStore2 5).1 (by decide)⟩

/-- Claim C3: registering with a (username, email) pair that already
belongs to a user succeeds, leaves the store unchanged (in particular
the number of users), re-sends a confirmation code to that email, and
reports no error. -/
theorem C3_register_idempotent :
    ∀ (st : Store) (u e : String),
      (∃ x ∈ st.users, x.username = u ∧ x.email = e) →
      register st u e = (none, st, [e]) := by
  intro st u e hex
  have hpair : pairExists st u e = true := by
    rw [pairExists, List.any_eq_true]
    obtain ⟨x, h1, h2, h3⟩ := hex
    exact ⟨x, h1, by simp [h2, h3]⟩
  unfold register
  rw [if_pos hpair]

/-- Witness for C3: re-registering alice with her exact pair is a
no-op resend. -/
theorem C3_register_idempotent_witness :
    register wStore "alice" "a@x.com" = (none, wStore, ["a@x.com"]) :=
  C3_register_idempotent wStore "alice" "a@x.com" (by decide)

/-- A sample deterministic confirmation-code derivation. -/
def wTokenGen : UserRec → String := fun x => x.username ++ "-code"

/-- Claim C4: a token-exchange request with well-formed fields fails
with the not-found error when no user carries the username, fails with
the authentication error when the code does not verify against the
derivation function, and otherwise returns a bearer token carrying the
identity of that user. -/
theorem C4_token_exchange :
    ∀ (tokenGen : UserRec → String) (st : Store) (u code : String),
      u ≠ "" → code ≠ "" →
      (st.users.find? (fun x => x.username == u) = none →
        get_jwt_token tokenGen st u code = .error ApiError.notFound ∧
        ApiError.notFound.toTaxonomy = ErrorClass.NotFoundError) ∧
      (∀ usr, st.users.find? (fun x => x.username == u) = some usr →
        (code ≠ tokenGen usr →
          get_jwt_token tokenGen st u code = .error ApiError.badConfirmationCode ∧
          ApiError.badConfirmationCode.toTaxonomy = ErrorClass.AuthenticationError) ∧
        (code = tokenGen usr →
          get_jwt_token tokenGen st u code = .ok ⟨usr.id⟩)) := by
  intro tokenGen st u code hu hcode
  have hu2 : (u == "") = false := beq_eq_false_iff_ne.mpr hu
  have hcode2 : (code == "") = false := beq_eq_false_iff_ne.mpr hcode
  constructor
  · intro hfind
    constructor
    · unfold get_jwt_token
      rw [hu2, hcode2, hfind]
      rfl
    · rfl
  · intro usr hfind
    constructor
    · intro hne
      have hbeq : (code == tokenGen usr) = false := beq_eq_false_iff_ne.mpr hne
      constructor
      · unfold get_jwt_token
        rw [hu2, hcode2, hfind]
        simp [hbeq]
      · rfl
    · intro heq
      have hbeq : (code == tokenGen usr) = true := beq_iff_eq.mpr heq
      unfold get_jwt_token
      rw [hu2, hcode2, hfind]
      simp [hbeq]

/-- Witness for C4: an unknown username is not found, a wrong code is an
authentication failure, the derived code yields the token of user 1. -/
theorem C4_token_exchange_witness :
    get_jwt_token wTokenGen wStore "zoe" "c" = .error ApiError.notFound ∧
    get_jwt_token wTokenGen wStore "alice" "wrong" =
      .error ApiError.badConfirmationCode ∧
    get_jwt_token wTokenGen wStore "alice" "alice-code" = .ok ⟨1⟩ := by
  refine ⟨((C4_token_exchange wTokenGen wStore "zoe" "c"
      (by decide) (by decide)).1 (by decide)).1, ?_, ?_⟩
  · exact (((C4_token_exchange wTokenGen wStore "alice" "wrong"
      (by decide) (by decide)).2 alice (by decide)).1 (by decide)).1
  · exact ((C4_token_exchange wTokenGen wStore "alice" "alice-code"
      (by decide) (by decide)).2 alice (by decide)).2 (by decide)

/-- The literal me passes the username format validation. -/
theorem usernameFormatOk_me : usernameFormatOk "me" = true := by decide

/-- A store holding one admin-created account with the reserved
username me. -/
def meStore : Store :=
  { users := [{ id := 1, username := "me", email := "me@x.com",
                role := "user", bio := "", first_name := "", last_name := "" }],
    categories := [], genres := [], titles := [], genreTitles := [],
    reviews := [] }

/-- Claim C5 counterexample: with an account (me, me@x.com) in the
store, a registration request with username me and that email does not
fail with a validation error — it takes the resend branch and succeeds,
because the exact-pair check of the register view runs before any
serializer validation. -/
theorem C5_counterexample_me_resend :
    register meStore "me" "me@x.com" = (none, meStore, ["me@x.com"]) := by
  decide

/-- Claim C5 (amended): when no user named me exists in the store, a
registration request with username me fails with the reserved-username
validation error, the store is unchanged (no user created) and no code
is sent. -/
theorem C5_me_registration_rejected :
    ∀ (st : Store) (e : String),
      (∀ x ∈ st.users, x.username ≠ "me") →
      register st "me" e = (some ApiError.reservedUsername, st, []) ∧
      ApiError.reservedUsername.toTaxonomy = ErrorClass.ValidationError := by
  intro st e hno
  have hpair : pairExists st "me" e = false := by
    rw [pairExists, List.any_eq_false]
    intro x hx
    simp only [Bool.and_eq_true, beq_iff_eq, not_and]
    intro h1 _
    exact hno x hx h1
  have hun : usernameExists st "me" = false := by
    rw [usernameExists, List.any_eq_false]
    intro x hx
    simpa using hno x hx
  have hrv : registerValidate st "me" e = some .reservedUsername := by
    unfold registerValidate
    rw [usernameFormatOk_me, hun]
    rfl
  constructor
  · unfold register
    rw [hpair, hrv]
    rfl
  · rfl

/-- Witness for C5 (amended) at the sample store (which has no user
named me). -/
theorem C5_me_registration_rejected_witness :
    register wStore "me" "m@x.com" = (some ApiError.reservedUsername, wStore, []) :=
  (C5_me_registration_rejected wStore "m@x.com" (by decide)).1

/-- Claim C6: a create_review whose score lies outside 1..10 fails with
the score validation error and creates nothing (the store is unchanged);
a score inside 1..10 passes the range check. -/
theorem C6_score_range :
    ∀ (st : Store) (a tid : Nat) (sc : Int) (tx : String),
      (¬(1 ≤ sc ∧ sc ≤ 10) →
        create_review st a tid sc tx = (some ApiError.scoreOutOfRange, st) ∧
        ApiError.scoreOutOfRange.toTaxonomy = ErrorClass.ValidationError) ∧
      ((1 ≤ sc ∧ sc ≤ 10) → validate_score sc = none) := by
  intro st a tid sc tx
  constructor
  · intro h
    have hvs : validate_score sc = some .scoreOutOfRange := by
      unfold validate_score
      rw [if_neg h]
    constructor
    · unfold create_review
      rw [hvs]
    · rfl
  · intro h
    unfold validate_score
    rw [if_pos h]

/-- Witness for C6: score 11 is rejected with the store unchanged,
score 7 passes the range check. -/
theorem C6_score_range_witness :
    create_review wStore 2 1 11 "x" = (some ApiError.scoreOutOfRange, wStore) ∧
    validate_score 7 = none :=
  ⟨((C6_score_range wStore 2 1 11 "x").1 (by decide)).1,
   (C6_score_range wStore 2 1 7 "x").2 (by decide)⟩

/-- Recognizer for the duplicate-review error. -/
def isDuplicateErr : Option ApiError → Bool
  | some .duplicateReview => true
  | _ => false

/-- The optional score check can only produce the score range error. -/
theorem validate_optional_score_err (sc : Option Int) (e : ApiError)
    (h : validate_optional_score sc = some e) : e = ApiError.scoreOutOfRange := by
  rcases sc with _ | v
  · exact absurd h (by simp [validate_optional_score])
  · have h2 : validate_score v = some e := h
    unfold validate_score at h2
    split at h2
    · exact absurd h2 (by simp)
    · exact ((Option.some.injEq _ _).mp h2).symm

/-- For any method other than POST the object-level validation never
produces the duplicate-review error. -/
theorem reviewValidate_not_post (m : Method) (st : Store) (a tid : Nat)
    (hm : (m == Method.POST) = false) :
    isDuplicateErr (reviewValidate m st a tid) = false := by
  unfold reviewValidate
  cases hft : findTitle st tid with
  | none => rfl
  | some t => simp [hm, isDuplicateErr]

/-- Claim C7: the one-review-per-(title, author) duplicate check guards
only creation: a review update (PATCH) and a review deletion can never
fail with the duplicate-review error, and the object-level validation
run with the PATCH or DELETE method never produces it. -/
theorem C7_update_bypasses_duplicate_check :
    ∀ (st : Store) (a rid tid rid2 tid2 a3 tid3 : Nat) (sc : Option Int)
      (tx : Option String),
      isDuplicateErr (update_review st a rid tid sc tx).1 = false ∧
      isDuplicateErr (destroy_review st rid2 tid2).1 = false ∧
      isDuplicateErr (reviewValidate Method.PATCH st a3 tid3) = false ∧
      isDuplicateErr (reviewValidate Method.DELETE st a3 tid3) = false := by
  intro st a rid tid rid2 tid2 a3 tid3 sc tx
  refine ⟨?_, ?_, reviewValidate_not_post Method.PATCH st a3 tid3 rfl,
    reviewValidate_not_post Method.DELETE st a3 tid3 rfl⟩
  · unfold update_review
    split
    · rfl
    · split
      · rfl
      · split
        · next err heq =>
          rw [validate_optional_score_err sc err heq]
          rfl
        · split
          · next heq =>
            have hpatch := reviewValidate_not_post Method.PATCH st a tid rfl
            rw [heq] at hpatch
            exact hpatch
          · rfl
  · unfold destroy_review
    split
    · rfl
    · split
      · rfl
      · rfl

/-- Claim C8: deleting a category succeeds, keeps every title (same
count), keeps the reviews, and maps each title to itself with the
category field nulled exactly when it referenced the deleted category;
deleting a genre keeps the titles untouched and removes exactly the
join rows referencing that genre. -/
theorem C8_delete_set_null_and_cascade :
    ∀ (st : Store) (slug : String),
      (∀ c, st.categories.find? (fun x => x.slug == slug) = some c →
        (destroy_category st slug).1 = none ∧
        ((destroy_category st slug).2).titles.length = st.titles.length ∧
        ((destroy_category st slug).2).reviews = st.reviews ∧
        ∀ t ∈ st.titles,
          (if t.category = some c.id then { t with category := none } else t) ∈
            ((destroy_category st slug).2).titles) ∧
      (∀ g, st.genres.find? (fun x => x.slug == slug) = some g →
        (destroy_genre st slug).1 = none ∧
        ((destroy_genre st slug).2).titles = st.titles ∧
        (∀ gt ∈ ((destroy_genre st slug).2).genreTitles,
          gt ∈ st.genreTitles ∧ ¬ gt.genre = some g.id) ∧
        (∀ gt ∈ st.genreTitles, ¬ gt.genre = some g.id →
          gt ∈ ((destroy_genre st slug).2).genreTitles)) := by
  intro st slug
  constructor
  · intro c hc
    unfold destroy_category
    rw [hc]
    refine ⟨rfl, by simp, rfl, ?_⟩
    intro t ht
    simp only [List.mem_map]
    refine ⟨t, ht, ?_⟩
    by_cases h : t.category = some c.id
    · simp [h]
    · simp [h]
  · intro g hg
    unfold destroy_genre
    rw [hg]
    refine ⟨rfl, rfl, ?_, ?_⟩
    · intro gt hgt
      rw [List.mem_filter] at hgt
      refine ⟨hgt.1, ?_⟩
      simpa using hgt.2
    · intro gt hgt hne
      rw [List.mem_filter]
      exact ⟨hgt, by simpa using hne⟩

/-- Witness for C8 at the sample store: category books and genre drama
both exist; deleting either succeeds, the title survives with its
category nulled, and the join row disappears. -/
theorem C8_delete_set_null_and_cascade_witness :
    (destroy_category wStore "books").1 = none ∧
    ((destroy_category wStore "books").2).titles.length = wStore.titles.length ∧
    ((destroy_genre wStore "drama").2).titles = wStore.titles := by
  obtain ⟨h1, h2, _, _⟩ :=
    (C8_delete_set_null_and_cascade wStore "books").1
      { id := 1, name := "Books", slug := "books" } (by decide)
  obtain ⟨_, h3, _, _⟩ :=
    (C8_delete_set_null_and_cascade wStore "drama").2
      { id := 1, name := "Drama", slug := "drama" } (by decide)
  exact ⟨h1, h2, h3⟩

/-- Claim C9: a PATCH of the own profile leaves every user's role
unchanged whatever data was submitted: the role field is read-only on
this endpoint and is mutable only through the admin user management. -/
theorem C9_role_unchanged_on_own_profile :
    ∀ (st : Store) (uid : Nat) (d : UserEditData),
      ((users_own_profile st uid d).2).users.map UserRec.role =
        st.users.map UserRec.role := by
  intro st uid d
  unfold users_own_profile
  split
  · rfl
  · split
    · rfl
    · show ((st.users.map fun x =>
        if x.id == uid then applyUserEdit x d else x).map UserRec.role) = _
      rw [List.map_map]
      apply List.map_congr_left
      intro x _
      simp only [Function.comp]
      split
      · rfl
      · rfl

/-- Claim C10: the admin user serializer has no reserved-me check: an
admin create-user request with username me and a fresh well-formed
email passes validation and creates a user named me. -/
theorem C10_admin_create_me :
    ∀ (st : Store) (e : String) (bio fn ln : String),
      usernameExists st "me" = false →
      emailFormatOk e = true →
      emailExists st e = false →
      (adminCreateUser st "me" e none bio fn ln).1 = none ∧
      ∃ x ∈ ((adminCreateUser st "me" e none bio fn ln).2).users,
        x.username = "me" ∧ x.email = e := by
  intro st e bio fn ln hun hefmt heex
  have hval : userSerializerValidate st "me" e none = none := by
    unfold userSerializerValidate
    rw [usernameFormatOk_me, hun, hefmt, heex]
    rfl
  unfold adminCreateUser
  rw [hval]
  exact ⟨rfl, _, List.mem_append_right _ (List.mem_singleton_self _), rfl, rfl⟩

/-- Witness for C10 at the sample store: the admin can create the
username me with a fresh email. -/
theorem C10_admin_create_me_witness :
    (adminCreateUser wStore "me" "c@x.com" none "" "" "").1 = none ∧
    ∃ x ∈ ((adminCreateUser wStore "me" "c@x.com" none "" "" "").2).users,
      x.username = "me" ∧ x.email = "c@x.com" :=
  C10_admin_create_me wStore "c@x.com" "" "" "" (by decide) (by decide) (by decide)
